import Mathlib

/-!
Verification of the penguin species prediction service
(validation → preprocessing → inference pipeline).

The application module `app/main.py` is exercised by the repository's test
suites (`tests/test_api.py`, `tests/test_model.py`) and helper scripts
(`app/test_env.py`, `app/test_gcp.py`, `locustfile.py`).  The pipeline is
embedded shallowly below: machine floats are modelled as exact rationals,
JSON bodies as an inductive value type, and the pre-trained XGBoost
classifier as an opaque function from a numeric feature vector to a
probability distribution over the three classes.
-/

namespace PenguinService

/-- The sex enumeration of a penguin record: closed set {"male", "female"}. -/
inductive Sex where
| male : Sex
| female : Sex
deriving DecidableEq, Repr

/-- The island enumeration: closed set {"Torgersen", "Biscoe", "Dream"}. -/
inductive Island where
| torgersen : Island
| biscoe : Island
| dream : Island
deriving DecidableEq, Repr

/-- Modelled from the spec: the validated `PenguinFeatures` input record of
`app/main.py` (absent from the sources; its fields and types are fixed by
§3 of the spec and by the constructor calls in `tests/test_model.py`).
Reals are embedded as exact rationals. -/
structure PenguinFeatures where
  bill_length_mm : ℚ
  bill_depth_mm : ℚ
  flipper_length_mm : ℤ
  body_mass_g : ℤ
  year : ℤ
  sex : Sex
  island : Island
deriving DecidableEq, Repr

/-- Modelled from the spec: the ordered class-label list of the model
artifact's metadata (spec §3; asserted against `app.main.label_encoder_classes`
in `tests/test_model.py`). -/
def label_encoder_classes : List String :=
  ["Adelie", "Chinstrap", "Gentoo"]

/-- Modelled from the spec: the ordered feature-name list of the model
artifact's metadata (spec §3; asserted against `app.main.feature_names`
in `tests/test_model.py`). -/
def feature_names : List String :=
  ["bill_length_mm", "bill_depth_mm", "flipper_length_mm",
   "body_mass_g", "sex_Male", "island_Dream", "island_Torgersen"]

/-- Modelled from the spec: `preprocess_features` of `app/main.py` (absent
from the sources).  Maps a validated record to the single-row feature
vector, represented as the ordered list of (column name, value) pairs:
the four numeric fields pass through unchanged, `year` is dropped, `sex`
is one-hot encoded into `sex_Male`, and `island` into `island_Dream` and
`island_Torgersen` with Biscoe as the dropped baseline (spec §4.2). -/
def preprocess_features (x : PenguinFeatures) : List (String × ℚ) :=
  [("bill_length_mm", x.bill_length_mm),
   ("bill_depth_mm", x.bill_depth_mm),
   ("flipper_length_mm", (x.flipper_length_mm : ℚ)),
   ("body_mass_g", (x.body_mass_g : ℚ)),
   ("sex_Male", if x.sex = Sex.male then 1 else 0),
   ("island_Dream", if x.island = Island.dream then 1 else 0),
   ("island_Torgersen", if x.island = Island.torgersen then 1 else 0)]

/-- Value of a named column of a feature-vector row. -/
def colVal (row : List (String × ℚ)) (name : String) : Option ℚ :=
  row.lookup name

/-- A JSON value as far as the request bodies of the test suites exercise
them: null, numbers (floats and ints embedded as rationals), strings and
booleans. -/
inductive Json where
| jnull : Json
| jnum (q : ℚ) : Json
| jstr (s : String) : Json
| jbool (b : Bool) : Json
deriving DecidableEq, Repr

/-- An untyped POST /predict body, restricted to the seven recognised keys:
each field is absent (`none`) or carries an arbitrary JSON value. -/
structure RawRequest where
  bill_length_mm : Option Json
  bill_depth_mm : Option Json
  flipper_length_mm : Option Json
  body_mass_g : Option Json
  year : Option Json
  sex : Option Json
  island : Option Json
deriving DecidableEq, Repr

/-- The completely empty request body `{}`. -/
def emptyRequest : RawRequest :=
  ⟨none, none, none, none, none, none, none⟩

/-- Modelled from the spec: pydantic acceptance of a float field — a JSON
number parses, anything else (missing, null, string, boolean) is invalid;
no range restriction (spec §4.4). -/
def parseFloatField : Option Json → Option ℚ
  | some (Json.jnum q) => some q
  | _ => none

/-- Modelled from the spec: pydantic acceptance of an int field — a JSON
number with no fractional part parses; no range restriction (spec §4.4). -/
def parseIntField : Option Json → Option ℤ
  | some (Json.jnum q) => if q.den = 1 then some q.num else none
  | _ => none

/-- Modelled from the spec: the closed sex enumeration (spec §3, §4.4). -/
def parseSexField : Option Json → Option Sex
  | some (Json.jstr "male") => some Sex.male
  | some (Json.jstr "female") => some Sex.female
  | _ => none

/-- Modelled from the spec: the closed island enumeration (spec §3, §4.4). -/
def parseIslandField : Option Json → Option Island
  | some (Json.jstr "Torgersen") => some Island.torgersen
  | some (Json.jstr "Biscoe") => some Island.biscoe
  | some (Json.jstr "Dream") => some Island.dream
  | _ => none

/-- A per-field validation error descriptor: field name plus problem
description (spec §6, asserted in `tests/test_api.py`). -/
structure FieldError where
  field : String
  message : String
deriving DecidableEq, Repr

/-- The seven required field names, in declaration order. -/
def required_fields : List String :=
  ["bill_length_mm", "bill_depth_mm", "flipper_length_mm",
   "body_mass_g", "year", "sex", "island"]

/-- The error entries contributed by one field: none when it parsed, one
entry otherwise, distinguishing a missing field from an invalid value. -/
def errFor (name : String) (parsed present : Bool) : List FieldError :=
  if parsed then []
  else [⟨name, if present then "Invalid value" else "Field required"⟩]

/-- Modelled from the spec: the full per-field error report — validation
does not short-circuit, every invalid or missing field contributes exactly
one entry, in field-declaration order (spec §4.4). -/
def fieldErrors (r : RawRequest) : List FieldError :=
  errFor "bill_length_mm" (parseFloatField r.bill_length_mm).isSome r.bill_length_mm.isSome ++
  errFor "bill_depth_mm" (parseFloatField r.bill_depth_mm).isSome r.bill_depth_mm.isSome ++
  errFor "flipper_length_mm" (parseIntField r.flipper_length_mm).isSome r.flipper_length_mm.isSome ++
  errFor "body_mass_g" (parseIntField r.body_mass_g).isSome r.body_mass_g.isSome ++
  errFor "year" (parseIntField r.year).isSome r.year.isSome ++
  errFor "sex" (parseSexField r.sex).isSome r.sex.isSome ++
  errFor "island" (parseIslandField r.island).isSome r.island.isSome

/-- Whether the named field of a request parses successfully. -/
def fieldValid (r : RawRequest) (n : String) : Bool :=
  if n = "bill_length_mm" then (parseFloatField r.bill_length_mm).isSome
  else if n = "bill_depth_mm" then (parseFloatField r.bill_depth_mm).isSome
  else if n = "flipper_length_mm" then (parseIntField r.flipper_length_mm).isSome
  else if n = "body_mass_g" then (parseIntField r.body_mass_g).isSome
  else if n = "year" then (parseIntField r.year).isSome
  else if n = "sex" then (parseSexField r.sex).isSome
  else if n = "island" then (parseIslandField r.island).isSome
  else false

/-- The names of the required fields that fail validation, in order. -/
def invalidFields (r : RawRequest) : List String :=
  required_fields.filter (fun n => !(fieldValid r n))

/-- All seven fields are present and correctly typed. -/
def fieldsTyped (r : RawRequest) : Bool :=
  (parseFloatField r.bill_length_mm).isSome &&
  (parseFloatField r.bill_depth_mm).isSome &&
  (parseIntField r.flipper_length_mm).isSome &&
  (parseIntField r.body_mass_g).isSome &&
  (parseIntField r.year).isSome &&
  (parseSexField r.sex).isSome &&
  (parseIslandField r.island).isSome

/-- Modelled from the spec: the Validation & Request Layer of `app/main.py`
(absent from the sources).  An untyped body becomes either a typed
`PenguinFeatures` record or the full list of per-field errors
(spec §4.4). -/
def validate (r : RawRequest) : Except (List FieldError) PenguinFeatures :=
  if fieldsTyped r then
    Except.ok
      ⟨(parseFloatField r.bill_length_mm).getD 0,
       (parseFloatField r.bill_depth_mm).getD 0,
       (parseIntField r.flipper_length_mm).getD 0,
       (parseIntField r.body_mass_g).getD 0,
       (parseIntField r.year).getD 0,
       (parseSexField r.sex).getD Sex.male,
       (parseIslandField r.island).getD Island.torgersen⟩
  else Except.error (fieldErrors r)

/-- Modelled from the spec: the pre-trained classifier artifact, opaque —
a function from a numeric feature vector to a probability distribution
over the three class indices (spec §1, §4.3). -/
structure Classifier where
  predict_proba : List ℚ → Fin 3 → ℚ

/-- Well-formedness of the artifact, as guaranteed by XGBoost
`predict_proba`: on every vector the probabilities are nonnegative and sum
to one (spec §4.3 guarantees). -/
def Classifier.WF (c : Classifier) : Prop :=
  ∀ v : List ℚ,
    (∀ i : Fin 3, 0 ≤ c.predict_proba v i) ∧
    c.predict_proba v 0 + c.predict_proba v 1 + c.predict_proba v 2 = 1

/-- Modelled from the spec: the predicted class index — the first index of
maximal probability, as XGBoost `predict` / argmax computes it
(spec §4.3). -/
def predictIdx (c : Classifier) (v : List ℚ) : Fin 3 :=
  if c.predict_proba v 1 ≤ c.predict_proba v 0 ∧
     c.predict_proba v 2 ≤ c.predict_proba v 0 then 0
  else if c.predict_proba v 2 ≤ c.predict_proba v 1 then 1
  else 2

/-- Modelled from the spec: confidence is the probability mass assigned to
the predicted class index (spec §4.3). -/
def confidence (c : Classifier) (v : List ℚ) : ℚ :=
  c.predict_proba v (predictIdx c v)

/-- The label-list entry at a class index. -/
def speciesOf (i : Fin 3) : String :=
  label_encoder_classes.getD i.val ""

/-- Modelled from the spec: the predicted species is the label-list entry
at the predicted index (spec §4.3). -/
def predicted_species (c : Classifier) (v : List ℚ) : String :=
  speciesOf (predictIdx c v)

/-- The ephemeral per-request prediction result (spec §3). -/
structure PredictionResult where
  predicted_species : String
  confidence : ℚ
deriving DecidableEq, Repr

/-- Modelled from the spec: the HTTP responses the service produces —
a 200 success body, a 400 validation-error body with a detail summary and
the per-field error list, or the framework's 404 for unknown routes
(spec §6; `tests/test_api.py`). -/
inductive Response where
| success (res : PredictionResult) : Response
| badRequest (detail : String) (errors : List FieldError) : Response
| notFound : Response
deriving DecidableEq, Repr

/-- HTTP status code of a response. -/
def Response.status : Response → Nat
  | Response.success _ => 200
  | Response.badRequest _ _ => 400
  | Response.notFound => 404

/-- The per-field error list carried by a response (empty on success). -/
def Response.errorList : Response → List FieldError
  | Response.success _ => []
  | Response.badRequest _ es => es
  | Response.notFound => []

/-- The top-level keys of the response's JSON body, in serialisation
order.  A FastAPI 404 body is `\x7b"detail": "Not Found"\x7d`. -/
def Response.bodyKeys : Response → List String
  | Response.success _ => ["predicted_species", "confidence"]
  | Response.badRequest _ _ => ["detail", "errors"]
  | Response.notFound => ["detail"]

/-- Modelled from the spec: the POST /predict handler of `app/main.py`
(absent from the sources) — validate, preprocess, infer, respond
(spec §2 data flow, §6). -/
def handle_predict (c : Classifier) (r : RawRequest) : Response :=
  match validate r with
  | Except.error es => Response.badRequest "Validation error" es
  | Except.ok x =>
      let v := (preprocess_features x).map Prod.snd
      Response.success ⟨predicted_species c v, confidence c v⟩

/-- HTTP method of a request. -/
inductive Method where
| get : Method
| post : Method
deriving DecidableEq, Repr

/-- Modelled from the spec: the application's route table.  Per
`tests/test_api.py::test_root_endpoint` no GET route is defined — in
particular no root/health endpoint — so every request other than
POST /predict falls through to the framework's 404. -/
def dispatch (c : Classifier) (m : Method) (path : String) (r : RawRequest) : Response :=
  match m, path with
  | Method.post, "/predict" => handle_predict c r
  | _, _ => Response.notFound

/-- One full request-scoped pipeline run: feature vector, predicted index,
predicted species, confidence and the probability distribution.  The
`callIndex` argument numbers the repeated call; the pipeline keeps no
per-call state, so the result cannot depend on it. -/
def run_pipeline (c : Classifier) (x : PenguinFeatures) (_callIndex : ℕ) :
    List (String × ℚ) × Fin 3 × String × ℚ × (Fin 3 → ℚ) :=
  let fv := preprocess_features x
  let v := fv.map Prod.snd
  (fv, predictIdx c v, predicted_species c v, confidence c v,
   fun i => c.predict_proba v i)

/-- A source the Model Artifact Loader can draw from. -/
inductive Source where
| remote : Source
| localPaths : Source
deriving DecidableEq, Repr

/-- The loader's configuration: the GCS bucket name (empty string when the
environment variable is unset, mirroring `os.getenv` with default "") and
the optional credential-file reference (from `app/test_env.py`). -/
structure LoaderConfig where
  gcs_bucket_name : String
  google_application_credentials : Option String
deriving DecidableEq, Repr

/-- Whether remote retrieval is attempted: both the bucket name and the
credential reference must be truthy, exactly as computed in
`app/test_env.py` (`use_gcs = bucket_name and credentials_path`). -/
def use_gcs (cfg : LoaderConfig) : Bool :=
  (cfg.gcs_bucket_name != "") && (cfg.google_application_credentials.getD "" != "")

/-- The raw metadata document: either list may be missing
(keys `label_encoder_classes` and `feature_names`, per `app/test_gcp.py`). -/
structure RawMetadata where
  label_encoder_classes : Option (List String)
  feature_names : Option (List String)
deriving DecidableEq, Repr

/-- A pair of fetched artifacts: the classifier file (which may fail to
deserialize, hence `Option` over an abstract handle) plus the metadata
document. -/
structure ArtifactPair where
  model_deser : Option ℕ
  metadata : RawMetadata
deriving DecidableEq, Repr

/-- The world the loader draws from: what each source yields.  `none`
means the source does not yield both artifact files. -/
structure ArtifactStore where
  remote : Option ArtifactPair
  localFiles : Option ArtifactPair
deriving DecidableEq, Repr

/-- The process-wide state populated by a successful load. -/
structure LoadedState where
  model : ℕ
  label_encoder_classes : List String
  feature_names : List String
deriving DecidableEq, Repr

/-- The artifact pair the loader ends up reading: the remote download
(falling back to the local paths when the remote source does not yield
both files) when remote retrieval is configured, the local paths
directly otherwise. -/
def selectedArtifacts (cfg : LoaderConfig) (st : ArtifactStore) : Option ArtifactPair :=
  if use_gcs cfg then
    match st.remote with
    | some p => some p
    | none => st.localFiles
  else st.localFiles

/-- The sources attempted, in order. -/
def attemptedSources (cfg : LoaderConfig) (st : ArtifactStore) : List Source :=
  if use_gcs cfg then
    match st.remote with
    | some _ => [Source.remote]
    | none => [Source.remote, Source.localPaths]
  else [Source.localPaths]

/-- Modelled from the spec: `load_model_and_metadata` of `app/main.py`
(absent from the sources; spec §4.1).  When remote configuration is
present, remote retrieval is attempted first, downloading both artifacts
to a transient local location before loading; otherwise the local file
paths are read directly.  The load fails fatally — `Except.error`, the
process cannot serve — when no source yields both artifacts, when the
metadata lacks the class-label list or the feature-name list, or when the
classifier fails to deserialize.  The attempted sources are returned
alongside the outcome. -/
def load_model_and_metadata (cfg : LoaderConfig) (st : ArtifactStore) :
    List Source × Except String LoadedState :=
  (attemptedSources cfg st,
   match selectedArtifacts cfg st with
   | none => Except.error "model artifacts unavailable from any source"
   | some p =>
     match p.model_deser with
     | none => Except.error "classifier failed to deserialize"
     | some m =>
       match p.metadata.label_encoder_classes with
       | none => Except.error "metadata missing label_encoder_classes"
       | some ls =>
         match p.metadata.feature_names with
         | none => Except.error "metadata missing feature_names"
         | some fs => Except.ok ⟨m, ls, fs⟩)

/-- Whether a load outcome lets the process serve traffic. -/
def loadSucceeds : Except String LoadedState → Bool
  | Except.ok _ => true
  | Except.error _ => false

/-- A concrete well-formed classifier placing all mass on class 0,
used to instantiate theorems at concrete inputs. -/
def constClassifier : Classifier :=
  ⟨fun _ i =>
    match i with
    | 0 => 1
    | 1 => 0
    | 2 => 0⟩

/-- The validated record of the spec §8 example scenario. -/
def exampleFeatures : PenguinFeatures :=
  ⟨391/10, 187/10, 181, 3750, 2007, Sex.male, Island.torgersen⟩

/-- The spec §8 example request body, fully valid. -/
def exampleRequest : RawRequest :=
  ⟨some (Json.jnum (391/10)), some (Json.jnum (187/10)), some (Json.jnum 181),
   some (Json.jnum 3750), some (Json.jnum 2007), some (Json.jstr "male"),
   some (Json.jstr "Torgersen")⟩

/-- A correctly-typed body with physically out-of-range values
(bill_length_mm = 1000.0, body_mass_g = -1000), from
`tests/test_api.py::test_predict_endpoint_out_of_range_values` and
`test_predict_endpoint_extreme_values`. -/
def outOfRangeRequest : RawRequest :=
  ⟨some (Json.jnum 1000), some (Json.jnum (187/10)), some (Json.jnum 181),
   some (Json.jnum (-1000)), some (Json.jnum 2007), some (Json.jstr "male"),
   some (Json.jstr "Torgersen")⟩

/-- The body of `tests/test_api.py::test_predict_endpoint_null_values`:
bill_length_mm present but null, all other fields valid. -/
def nullFieldRequest : RawRequest :=
  ⟨some Json.jnull, some (Json.jnum (187/10)), some (Json.jnum 181),
   some (Json.jnum 3750), some (Json.jnum 2007), some (Json.jstr "male"),
   some (Json.jstr "Torgersen")⟩

/-- A concrete remote configuration: bucket and credential reference. -/
def loaderConfigW : LoaderConfig :=
  ⟨"penguin-bucket", some "creds.json"⟩

/-- A concrete fully-usable artifact pair. -/
def artifactPairW : ArtifactPair :=
  ⟨some 1, ⟨some label_encoder_classes, some feature_names⟩⟩

/-- A concrete store whose remote source yields both artifacts. -/
def artifactStoreW : ArtifactStore :=
  ⟨some artifactPairW, none⟩

end PenguinService

namespace PenguinService

/-- C1: for every validated PenguinFeatures record, the preprocessed row has
`sex_Male = 1` exactly for males and `0` exactly for females,
`island_Dream = 1` iff the island is Dream, `island_Torgersen = 1` iff the
island is Torgersen, Biscoe yields 0 in both island columns, and no
`sex_Female` or `island_Biscoe` column exists. -/
theorem preprocess_one_hot_encoding (x : PenguinFeatures) :
    (colVal (preprocess_features x) "sex_Male" = some 1 ↔ x.sex = Sex.male) ∧
    (colVal (preprocess_features x) "sex_Male" = some 0 ↔ x.sex = Sex.female) ∧
    (colVal (preprocess_features x) "island_Dream" = some 1 ↔ x.island = Island.dream) ∧
    (colVal (preprocess_features x) "island_Torgersen" = some 1 ↔ x.island = Island.torgersen) ∧
    (x.island = Island.biscoe →
      colVal (preprocess_features x) "island_Dream" = some 0 ∧
      colVal (preprocess_features x) "island_Torgersen" = some 0) ∧
    "sex_Female" ∉ (preprocess_features x).map Prod.fst ∧
    "island_Biscoe" ∉ (preprocess_features x).map Prod.fst := by
  cases hs : x.sex <;> cases hi : x.island <;>
    simp [preprocess_features, colVal, List.lookup, hs, hi]

/-- Witness for C1 at the female/Biscoe record from
`tests/test_model.py::test_preprocess_features_female_biscoe`. -/
theorem preprocess_one_hot_encoding_witness :
    (colVal (preprocess_features ⟨461/10, 132/10, 211, 4500, 2008, Sex.female, Island.biscoe⟩)
        "island_Dream" = some 0 ∧
     colVal (preprocess_features ⟨461/10, 132/10, 211, 4500, 2008, Sex.female, Island.biscoe⟩)
        "island_Torgersen" = some 0) ∧
    colVal (preprocess_features ⟨461/10, 132/10, 211, 4500, 2008, Sex.female, Island.biscoe⟩)
        "sex_Male" = some 0 := by
  refine ⟨(preprocess_one_hot_encoding
    ⟨461/10, 132/10, 211, 4500, 2008, Sex.female, Island.biscoe⟩).2.2.2.2.1 rfl, ?_⟩
  exact (preprocess_one_hot_encoding
    ⟨461/10, 132/10, 211, 4500, 2008, Sex.female, Island.biscoe⟩).2.1.mpr rfl

/-- C2: for every validated PenguinFeatures record, the preprocessed row's
column names are exactly the artifact's feature-name list in that order,
the four numeric fields pass through unchanged, and `year` is absent from
the output column set. -/
theorem preprocess_columns_exact (x : PenguinFeatures) :
    (preprocess_features x).map Prod.fst = feature_names ∧
    (preprocess_features x).length = 7 ∧
    colVal (preprocess_features x) "bill_length_mm" = some x.bill_length_mm ∧
    colVal (preprocess_features x) "bill_depth_mm" = some x.bill_depth_mm ∧
    colVal (preprocess_features x) "flipper_length_mm" = some (x.flipper_length_mm : ℚ) ∧
    colVal (preprocess_features x) "body_mass_g" = some (x.body_mass_g : ℚ) ∧
    "year" ∉ (preprocess_features x).map Prod.fst := by
  simp [preprocess_features, feature_names, colVal, List.lookup]

/-- Witness for C2 at the male/Torgersen example record of spec §8. -/
theorem preprocess_columns_exact_witness :
    (preprocess_features ⟨391/10, 187/10, 181, 3750, 2007, Sex.male, Island.torgersen⟩).map
      Prod.fst = feature_names ∧
    colVal (preprocess_features ⟨391/10, 187/10, 181, 3750, 2007, Sex.male, Island.torgersen⟩)
      "bill_length_mm" = some (391/10) := by
  exact ⟨(preprocess_columns_exact
      ⟨391/10, 187/10, 181, 3750, 2007, Sex.male, Island.torgersen⟩).1,
    (preprocess_columns_exact
      ⟨391/10, 187/10, 181, 3750, 2007, Sex.male, Island.torgersen⟩).2.2.1⟩

/-- An if-guarded singleton is empty exactly when the guard holds. -/
lemma ite_nil_iff (b : Bool) (n : String) :
    ((if b = true then ([] : List String) else [n]) = []) ↔ b = true := by
  cases b <;> simp

/-- `invalidFields` unfolded to one guarded segment per required field. -/
lemma invalidFields_eq (r : RawRequest) :
    invalidFields r =
      (if (parseFloatField r.bill_length_mm).isSome then [] else ["bill_length_mm"]) ++
      (if (parseFloatField r.bill_depth_mm).isSome then [] else ["bill_depth_mm"]) ++
      (if (parseIntField r.flipper_length_mm).isSome then [] else ["flipper_length_mm"]) ++
      (if (parseIntField r.body_mass_g).isSome then [] else ["body_mass_g"]) ++
      (if (parseIntField r.year).isSome then [] else ["year"]) ++
      (if (parseSexField r.sex).isSome then [] else ["sex"]) ++
      (if (parseIslandField r.island).isSome then [] else ["island"]) := by
  cases h1 : (parseFloatField r.bill_length_mm).isSome <;>
  cases h2 : (parseFloatField r.bill_depth_mm).isSome <;>
  cases h3 : (parseIntField r.flipper_length_mm).isSome <;>
  cases h4 : (parseIntField r.body_mass_g).isSome <;>
  cases h5 : (parseIntField r.year).isSome <;>
  cases h6 : (parseSexField r.sex).isSome <;>
  cases h7 : (parseIslandField r.island).isSome <;>
    simp [invalidFields, required_fields, fieldValid, h1, h2, h3, h4, h5, h6, h7]

/-- No invalid field exists exactly when all seven fields are typed. -/
lemma invalidFields_nil_iff (r : RawRequest) :
    invalidFields r = [] ↔ fieldsTyped r = true := by
  rw [invalidFields_eq]
  simp [List.append_eq_nil, ite_nil_iff, fieldsTyped, Bool.and_eq_true,
    Option.isSome_iff_ne_none]
  tauto

/-- Validation either succeeds with no invalid field, or fails carrying the
full per-field error list. -/
lemma validate_spec (r : RawRequest) :
    (invalidFields r = [] ∧ ∃ x, validate r = Except.ok x) ∨
    (invalidFields r ≠ [] ∧ validate r = Except.error (fieldErrors r)) := by
  cases h : fieldsTyped r
  · right
    refine ⟨?_, by simp [validate, h]⟩
    intro hnil
    rw [invalidFields_nil_iff] at hnil
    simp [h] at hnil
  · left
    refine ⟨(invalidFields_nil_iff r).mpr h, ?_⟩
    exact ⟨⟨(parseFloatField r.bill_length_mm).getD 0,
      (parseFloatField r.bill_depth_mm).getD 0,
      (parseIntField r.flipper_length_mm).getD 0,
      (parseIntField r.body_mass_g).getD 0,
      (parseIntField r.year).getD 0,
      (parseSexField r.sex).getD Sex.male,
      (parseIslandField r.island).getD Island.torgersen⟩, by simp [validate, h]⟩

/-- The error list names exactly the invalid fields, in field order. -/
lemma fieldErrors_map_field (r : RawRequest) :
    (fieldErrors r).map FieldError.field = invalidFields r := by
  rw [invalidFields_eq]
  simp [fieldErrors, errFor, apply_ite (List.map FieldError.field)]

/-- C3: a request with missing, wrongly-typed or invalid-enum fields is
answered with status 400 and a body carrying a detail summary plus exactly
one field/message entry per invalid or missing field; an empty body yields
seven entries, with no short-circuit at the first failure. -/
theorem predict_validation_error_report (c : Classifier) (r : RawRequest) :
    ((handle_predict c r).status = 400 ↔ invalidFields r ≠ []) ∧
    (handle_predict c r).errorList.map FieldError.field = invalidFields r ∧
    ((handle_predict c r).status = 400 → "detail" ∈ (handle_predict c r).bodyKeys) ∧
    (invalidFields emptyRequest).length = 7 := by
  rcases validate_spec r with ⟨hnil, x, hok⟩ | ⟨hne, herr⟩
  · refine ⟨?_, ?_, ?_, by decide⟩
    · simp [handle_predict, hok, Response.status, hnil]
    · simp [handle_predict, hok, Response.errorList, hnil]
    · simp [handle_predict, hok, Response.status]
  · refine ⟨?_, ?_, ?_, by decide⟩
    · simp [handle_predict, herr, Response.status, hne]
    · simpa [handle_predict, herr, Response.errorList] using fieldErrors_map_field r
    · simp [handle_predict, herr, Response.bodyKeys]

/-- Witness for C3 at the empty request body. -/
theorem predict_validation_error_report_witness :
    (handle_predict constClassifier emptyRequest).status = 400 ∧
    (handle_predict constClassifier emptyRequest).errorList.map FieldError.field =
      invalidFields emptyRequest ∧
    (invalidFields emptyRequest).length = 7 := by
  refine ⟨?_, (predict_validation_error_report constClassifier emptyRequest).2.1,
    (predict_validation_error_report constClassifier emptyRequest).2.2.2⟩
  exact (predict_validation_error_report constClassifier emptyRequest).1.mpr (by decide)

/-- Every class probability is bounded by one under well-formedness. -/
lemma proba_le_one (c : Classifier) (hWF : c.WF) (v : List ℚ) (i : Fin 3) :
    c.predict_proba v i ≤ 1 := by
  have h0 := (hWF v).1 0
  have h1 := (hWF v).1 1
  have h2 := (hWF v).1 2
  have hs := (hWF v).2
  fin_cases i
  · show c.predict_proba v 0 ≤ 1
    linarith
  · show c.predict_proba v 1 ≤ 1
    linarith
  · show c.predict_proba v 2 ≤ 1
    linarith

/-- The confidence dominates the three class probabilities. -/
lemma confidence_is_max (c : Classifier) (v : List ℚ) :
    c.predict_proba v 0 ≤ confidence c v ∧
    c.predict_proba v 1 ≤ confidence c v ∧
    c.predict_proba v 2 ≤ confidence c v := by
  unfold confidence predictIdx
  split_ifs with hA hB
  · exact ⟨le_refl _, hA.1, hA.2⟩
  · rw [not_and_or] at hA
    push_neg at hA
    refine ⟨?_, le_refl _, hB⟩
    rcases hA with h | h <;> linarith
  · rw [not_and_or] at hA
    push_neg at hA
    push_neg at hB
    refine ⟨?_, le_of_lt hB, le_refl _⟩
    rcases hA with h | h <;> linarith

/-- The confidence equals the maximum of the distribution. -/
lemma confidence_eq_max (c : Classifier) (v : List ℚ) :
    confidence c v =
      max (max (c.predict_proba v 0) (c.predict_proba v 1)) (c.predict_proba v 2) := by
  obtain ⟨m0, m1, m2⟩ := confidence_is_max c v
  apply le_antisymm
  · unfold confidence predictIdx
    split_ifs <;> simp [le_max_iff, le_refl]
  · simp [max_le_iff]
    exact ⟨⟨m0, m1⟩, m2⟩

/-- The constant classifier used for witnesses is well-formed. -/
lemma constClassifier_wf : constClassifier.WF := by
  intro v
  constructor
  · intro i
    fin_cases i <;> norm_num [constClassifier]
  · norm_num [constClassifier]

/-- C4: for every accepted feature vector, the reported confidence is the
probability at the predicted class index, which is the maximum of the
distribution; the predicted species is the label-list entry at that
index; the three probabilities lie in [0,1] and sum to 1 within 1e-5. -/
theorem inference_confidence_and_distribution (c : Classifier) (v : List ℚ)
    (hWF : c.WF) :
    confidence c v = c.predict_proba v (predictIdx c v) ∧
    confidence c v =
      max (max (c.predict_proba v 0) (c.predict_proba v 1)) (c.predict_proba v 2) ∧
    predicted_species c v = label_encoder_classes.getD (predictIdx c v).val "" ∧
    (∀ i : Fin 3, 0 ≤ c.predict_proba v i ∧ c.predict_proba v i ≤ 1) ∧
    |c.predict_proba v 0 + c.predict_proba v 1 + c.predict_proba v 2 - 1| ≤ 1 / 100000 := by
  refine ⟨rfl, confidence_eq_max c v, rfl, ?_, ?_⟩
  · intro i
    exact ⟨(hWF v).1 i, proba_le_one c hWF v i⟩
  · rw [(hWF v).2]
    norm_num

/-- Witness for C4 at the constant classifier and the empty vector. -/
theorem inference_confidence_and_distribution_witness :
    Classifier.WF constClassifier ∧
    (confidence constClassifier [] =
      max (max (constClassifier.predict_proba [] 0) (constClassifier.predict_proba [] 1))
        (constClassifier.predict_proba [] 2) ∧
     |constClassifier.predict_proba [] 0 + constClassifier.predict_proba [] 1 +
        constClassifier.predict_proba [] 2 - 1| ≤ 1 / 100000) :=
  ⟨constClassifier_wf,
   (inference_confidence_and_distribution constClassifier [] constClassifier_wf).2.1,
   (inference_confidence_and_distribution constClassifier [] constClassifier_wf).2.2.2.2⟩

/-- The label at any class index is one of the three species. -/
lemma speciesOf_mem (i : Fin 3) :
    speciesOf i ∈ ["Adelie", "Chinstrap", "Gentoo"] := by
  fin_cases i <;> decide

/-- C5: every valid request is answered by a success body with exactly the
two keys predicted_species — one of the three labels — and confidence in
[0,1]. -/
theorem predict_success_response_shape (c : Classifier) (r : RawRequest)
    (hWF : c.WF) (x : PenguinFeatures) (hok : validate r = Except.ok x) :
    ∃ res, handle_predict c r = Response.success res ∧
      res.predicted_species ∈ ["Adelie", "Chinstrap", "Gentoo"] ∧
      0 ≤ res.confidence ∧ res.confidence ≤ 1 ∧
      (handle_predict c r).bodyKeys = ["predicted_species", "confidence"] ∧
      (handle_predict c r).status = 200 := by
  refine ⟨⟨predicted_species c ((preprocess_features x).map Prod.snd),
           confidence c ((preprocess_features x).map Prod.snd)⟩,
    ?_, speciesOf_mem _, (hWF _).1 _, proba_le_one c hWF _ _, ?_, ?_⟩
  · simp [handle_predict, hok]
  · simp [handle_predict, hok, Response.bodyKeys]
  · simp [handle_predict, hok, Response.status]

/-- Witness for C5 at the spec §8 example request. -/
theorem predict_success_response_shape_witness :
    validate exampleRequest = Except.ok exampleFeatures ∧
    ∃ res, handle_predict constClassifier exampleRequest = Response.success res ∧
      res.predicted_species ∈ ["Adelie", "Chinstrap", "Gentoo"] ∧
      0 ≤ res.confidence ∧ res.confidence ≤ 1 ∧
      (handle_predict constClassifier exampleRequest).bodyKeys =
        ["predicted_species", "confidence"] ∧
      (handle_predict constClassifier exampleRequest).status = 200 := by
  have hval : validate exampleRequest = Except.ok exampleFeatures := rfl
  exact ⟨hval, predict_success_response_shape constClassifier exampleRequest
    constClassifier_wf exampleFeatures hval⟩

/-- C6: a request whose seven fields are present and correctly typed is
accepted with a 200 prediction regardless of numeric magnitude — no range
or plausibility check exists anywhere in the pipeline. -/
theorem predict_no_range_validation (c : Classifier) (r : RawRequest)
    (h : fieldsTyped r = true) :
    (handle_predict c r).status = 200 := by
  simp [handle_predict, validate, h, Response.status]

/-- Witness for C6 at bill_length_mm = 1000.0 and body_mass_g = -1000. -/
theorem predict_no_range_validation_witness :
    fieldsTyped outOfRangeRequest = true ∧
    (handle_predict constClassifier outOfRangeRequest).status = 200 :=
  ⟨by decide, predict_no_range_validation constClassifier outOfRangeRequest (by decide)⟩

/-- C7: the validation→preprocessing→inference pipeline holds no per-call
state and draws no randomness, so two runs on the identical input — here
numbered by a call index the result cannot depend on — produce the
identical feature vector, predicted index, species, confidence and
probability distribution. -/
theorem pipeline_deterministic (c : Classifier) (x : PenguinFeatures) (i j : ℕ) :
    run_pipeline c x i = run_pipeline c x j := rfl

/-- Witness for C7: the first and the fifth run coincide. -/
theorem pipeline_deterministic_witness :
    run_pipeline constClassifier exampleFeatures 0 =
      run_pipeline constClassifier exampleFeatures 5 :=
  pipeline_deterministic constClassifier exampleFeatures 0 5

/-- C8: remote retrieval is attempted first exactly when both the bucket
name and the credential reference are configured, local paths are used
directly otherwise (with fallback to them when the remote source yields
nothing), and the load succeeds exactly when the selected source yields
both artifacts, the classifier deserializes, and the metadata carries both
the class-label list and the feature-name list — otherwise it is fatal. -/
theorem loader_source_selection_and_fatality (cfg : LoaderConfig) (st : ArtifactStore) :
    ((load_model_and_metadata cfg st).1.head? = some Source.remote ↔ use_gcs cfg = true) ∧
    (use_gcs cfg = true ↔
      cfg.gcs_bucket_name ≠ "" ∧ cfg.google_application_credentials.getD "" ≠ "") ∧
    (use_gcs cfg = false → (load_model_and_metadata cfg st).1 = [Source.localPaths]) ∧
    (use_gcs cfg = true → st.remote = none →
      (load_model_and_metadata cfg st).1 = [Source.remote, Source.localPaths]) ∧
    (loadSucceeds (load_model_and_metadata cfg st).2 = true ↔
      ∃ p, selectedArtifacts cfg st = some p ∧
        p.model_deser.isSome = true ∧
        p.metadata.label_encoder_classes.isSome = true ∧
        p.metadata.feature_names.isSome = true) := by
  refine ⟨?_, ?_, ?_, ?_, ?_⟩
  · cases huse : use_gcs cfg
    · simp [load_model_and_metadata, attemptedSources, huse]
    · cases hrem : st.remote <;>
        simp [load_model_and_metadata, attemptedSources, huse, hrem]
  · simp [use_gcs, Bool.and_eq_true, bne_iff_ne]
  · intro huse
    simp [load_model_and_metadata, attemptedSources, huse]
  · intro huse hrem
    simp [load_model_and_metadata, attemptedSources, huse, hrem]
  · rcases hsel : selectedArtifacts cfg st with _ | p
    · simp [load_model_and_metadata, loadSucceeds, hsel]
    · rcases hm : p.model_deser with _ | m <;>
      rcases hl : p.metadata.label_encoder_classes with _ | ls <;>
      rcases hf : p.metadata.feature_names with _ | fs <;>
        simp [load_model_and_metadata, loadSucceeds, hsel, hm, hl, hf]

/-- Witness for C8: with bucket and credentials configured and a usable
remote artifact pair, the loader tries the remote source first and the
load succeeds. -/
theorem loader_source_selection_and_fatality_witness :
    (load_model_and_metadata loaderConfigW artifactStoreW).1.head? = some Source.remote ∧
    loadSucceeds (load_model_and_metadata loaderConfigW artifactStoreW).2 = true := by
  refine ⟨(loader_source_selection_and_fatality loaderConfigW artifactStoreW).1.mpr
      (by decide), ?_⟩
  exact (loader_source_selection_and_fatality loaderConfigW artifactStoreW).2.2.2.2.mpr
    ⟨artifactPairW, by decide, rfl, rfl, rfl⟩

/-- C9 counterexample: a GET request to the health-check path the
repository's own load-test script monitors ("/") is answered 404 with a
detail-only body — its JSON contains no status key, refuting the claim as
stated (`tests/test_api.py::test_root_endpoint` expects exactly this). -/
theorem health_endpoint_counterexample :
    (dispatch constClassifier Method.get "/" emptyRequest).status = 404 ∧
    "status" ∉ (dispatch constClassifier Method.get "/" emptyRequest).bodyKeys := by
  refine ⟨rfl, ?_⟩
  show "status" ∉ Response.notFound.bodyKeys
  decide

/-- C9 amended: no health/status endpoint is defined — a GET request to /
falls through the route table to the framework's 404 with a detail-only
JSON body, independent of the request body, and the Validation & Request
Layer does not intercept it (the response carries no validation errors). -/
theorem no_health_endpoint_get_root (c : Classifier) (r : RawRequest) :
    dispatch c Method.get "/" r = Response.notFound ∧
    (dispatch c Method.get "/" r).status = 404 ∧
    "detail" ∈ (dispatch c Method.get "/" r).bodyKeys ∧
    "status" ∉ (dispatch c Method.get "/" r).bodyKeys ∧
    (dispatch c Method.get "/" r).errorList = [] := by
  refine ⟨rfl, rfl, ?_, ?_, rfl⟩
  · show "detail" ∈ Response.notFound.bodyKeys
    decide
  · show "status" ∉ Response.notFound.bodyKeys
    decide

/-- Witness for the amended C9 at a concrete classifier and body. -/
theorem no_health_endpoint_get_root_witness :
    dispatch constClassifier Method.get "/" emptyRequest = Response.notFound ∧
    (dispatch constClassifier Method.get "/" emptyRequest).errorList = [] :=
  ⟨(no_health_endpoint_get_root constClassifier emptyRequest).1,
   (no_health_endpoint_get_root constClassifier emptyRequest).2.2.2.2⟩

/-- C10: every body whose bill_length_mm is present but JSON null — whatever
the other fields hold — is rejected with a 400 validation error naming the
field: null is an invalid value, not a supplied one. -/
theorem null_field_rejected (c : Classifier) (r : RawRequest)
    (h : r.bill_length_mm = some Json.jnull) :
    (handle_predict c r).status = 400 ∧
    "bill_length_mm" ∈ (handle_predict c r).errorList.map FieldError.field := by
  have hp : parseFloatField r.bill_length_mm = none := by rw [h]; rfl
  have ht : fieldsTyped r = false := by
    simp [fieldsTyped, hp]
  have hv : validate r = Except.error (fieldErrors r) := by
    simp [validate, ht]
  constructor
  · simp [handle_predict, hv, Response.status]
  · have hm : (handle_predict c r).errorList = fieldErrors r := by
      simp [handle_predict, hv, Response.errorList]
    rw [hm, fieldErrors_map_field, invalidFields_eq]
    simp [hp]

/-- Witness for C10 at the body of
`tests/test_api.py::test_predict_endpoint_null_values`: bill_length_mm
null with all other fields valid. -/
theorem null_field_rejected_witness :
    nullFieldRequest.bill_length_mm = some Json.jnull ∧
    ((handle_predict constClassifier nullFieldRequest).status = 400 ∧
     "bill_length_mm" ∈
       (handle_predict constClassifier nullFieldRequest).errorList.map FieldError.field) :=
  ⟨rfl, null_field_rejected constClassifier nullFieldRequest rfl⟩

end PenguinService
